import Mathlib

/-!
Shallow embedding of the NutriScan Flask backend (`Backend/app.py`) and
proofs about its normalization helpers and its two lookup handlers.

The embedding models:
  * `parse_ingredients`      (app.py, section 2)
  * `PRESERVATIVE_CODES`     (app.py, section 3)
  * `classify_additives`     (app.py, section 3)
  * `build_product_response` (app.py, section 4)
  * `scan_barcode`           (app.py, section 5), with the upstream HTTP
    exchange abstracted into an `UpstreamResult` value
  * `search_product`         (app.py, section 6), likewise

Python string primitives used by the code (`str.strip`, `str.replace`,
`str.lower`/`str.upper` on the ASCII material that occurs here, `re.split`
on a character class, and `re.match` with `\d` in its default Unicode
mode) are embedded as executable functions over `List Char`.
-/

namespace NutriScan

/-- Characters stripped by Python `str.strip()` (the `str.isspace` set). -/
def pyIsSpace (c : Char) : Bool :=
  let n := c.toNat
  (0x9 ≤ n && n ≤ 0xD) || n == 0x20 || (0x1C ≤ n && n ≤ 0x1F) ||
  n == 0x85 || n == 0xA0 || n == 0x1680 || (0x2000 ≤ n && n ≤ 0x200A) ||
  n == 0x2028 || n == 0x2029 || n == 0x202F || n == 0x205F || n == 0x3000

/-- Python `str.strip()` on the underlying character list: drop leading and
trailing whitespace. -/
def pyStripList (l : List Char) : List Char :=
  ((l.dropWhile pyIsSpace).reverse.dropWhile pyIsSpace).reverse

/-- Python `str.strip()`. -/
def pyStrip (s : String) : String := String.mk (pyStripList s.data)

/-- Python `str.upper()` restricted to ASCII letters, which is all the code
ever upper-cases (additive codes such as `e211`). -/
def pyUpper (s : String) : String := String.mk (s.data.map Char.toUpper)

/-- Python `str.lower()` restricted to ASCII letters, which is all the code
ever lower-cases (additive codes such as `E211`). -/
def pyLower (s : String) : String := String.mk (s.data.map Char.toLower)

/-- Python `tag.replace("en:", "")` on the underlying character list:
scan left to right and delete every non-overlapping occurrence of the
three-character pattern `en:` (the scan resumes after a deleted
occurrence and does not re-examine the characters already emitted). -/
def removeEnAux : List Char → List Char
  | [] => []
  | [c] => [c]
  | [c1, c2] => [c1, c2]
  | c1 :: c2 :: c3 :: rest =>
    if c1 = 'e' ∧ c2 = 'n' ∧ c3 = ':' then removeEnAux rest
    else c1 :: removeEnAux (c2 :: c3 :: rest)

/-- Python `s.replace("en:", "")`. -/
def removeEn (s : String) : String := String.mk (removeEnAux s.data)

/-- Whether the pattern `en:` occurs anywhere in the character list. -/
def containsEnAux : List Char → Bool
  | c1 :: c2 :: c3 :: rest =>
    (decide (c1 = 'e' ∧ c2 = 'n' ∧ c3 = ':')) || containsEnAux (c2 :: c3 :: rest)
  | _ => false

/-- Whether the first three characters of `s` are `en:`. -/
def startsWithEn (s : String) : Bool := s.data.take 3 == ['e', 'n', ':']

/-- The delimiter class of `re.split(r"[,;•]", ...)`: comma, semicolon or
bullet. -/
def isDelim (c : Char) : Bool := c == ',' || c == ';' || c == '•'

/-- Embedding of `parse_ingredients` (app.py lines 43-55): an empty (falsy)
input yields `[]`; otherwise split on the delimiter class, strip each
fragment, and keep the non-empty stripped fragments in order.
`List.splitOnP` has exactly the semantics of `re.split` on a character
class: delimiters are removed and empty fragments between consecutive
delimiters are kept (to be filtered out here). -/
def parse_ingredients (raw_text : String) : List String :=
  if raw_text = "" then []
  else
    let parts := (List.splitOnP isDelim raw_text.data).map (fun f => pyStrip (String.mk f))
    parts.filter (fun s => s ≠ "")

/-- Embedding of `PRESERVATIVE_CODES` (app.py lines 63-78), in source order.
The Python set is used only for membership tests, so a list with
`List.contains` is an adequate model. -/
def PRESERVATIVE_CODES : List String :=
  ["e200", "e201", "e202", "e203",
   "e210", "e211", "e212", "e213",
   "e214", "e215", "e216", "e217", "e218", "e219",
   "e220", "e221", "e222", "e223", "e224", "e225", "e226", "e227", "e228",
   "e230", "e231", "e232", "e233",
   "e234", "e235",
   "e239",
   "e242",
   "e249", "e250", "e251", "e252",
   "e260", "e261", "e262", "e263",
   "e270",
   "e280", "e281", "e282", "e283",
   "e284", "e285",
   "e290"]

/-- The cleaned candidate name the classifier computes for a tag:
`tag.replace("en:", "").strip()`. -/
def cleanName (tag : String) : String := pyStrip (removeEn tag)

/-- Whether the classifier sends a tag to the `preservatives` list:
`name.lower() in PRESERVATIVE_CODES`. -/
def isPreservativeTag (tag : String) : Bool :=
  PRESERVATIVE_CODES.contains (pyLower (cleanName tag))

/-- Embedding of `classify_additives` (app.py lines 81-104). The Python
loop appends `name.upper()` to `preservatives` when `name.lower()` is in
`PRESERVATIVE_CODES` and to `additives` otherwise; this structural
recursion produces the same two lists in the same order (the `if not
additive_tags` early return coincides with the `[]` case). -/
def classify_additives : List String → List String × List String
  | [] => ([], [])
  | tag :: rest =>
    let name := cleanName tag
    let p := classify_additives rest
    if PRESERVATIVE_CODES.contains (pyLower name) then (p.1, pyUpper name :: p.2)
    else (pyUpper name :: p.1, p.2)

/-- A product object as consumed by `build_product_response`: only the
fields the code reads, each with the default the code supplies to
`dict.get` (`""` for strings, `[]` for lists, and no default for
`nutriscore_score`, whose absence is `none`). -/
structure Product where
  product_name : String := ""
  image_url : String := ""
  ingredients_text : String := ""
  additives_tags : List String := []
  categories : String := ""
  nutriscore_score : Option Int := none
  allergens_tags : List String := []
  ingredients_analysis_tags : List String := []
  deriving DecidableEq, Repr

/-- A JSON value as it appears in the normalized response: a string, a
list of strings, a number, or null. -/
inductive Value where
  | vstr (s : String)
  | vlist (xs : List String)
  | vint (n : Int)
  | vnull
  deriving DecidableEq, Repr

/-- Embedding of `build_product_response` (app.py lines 110-158): a Python
dict built by successive assignments of distinct literal keys is modelled
as the ordered list of key-value pairs, each guarded exactly as in the
source (`if value:` truthiness for strings and lists, `is not None` for
the score). -/
def build_product_response (product : Product) : List (String × Value) :=
  let ingredients := parse_ingredients product.ingredients_text
  let ap := classify_additives product.additives_tags
  (if product.product_name ≠ "" then [("product_name", Value.vstr product.product_name)] else [])
  ++ (if product.image_url ≠ "" then [("image", Value.vstr product.image_url)] else [])
  ++ (if ingredients ≠ [] then [("ingredients", Value.vlist ingredients)] else [])
  ++ (if ap.1 ≠ [] then [("additives", Value.vlist ap.1)] else [])
  ++ (if ap.2 ≠ [] then [("preservatives", Value.vlist ap.2)] else [])
  ++ (if product.categories ≠ "" then [("categories", Value.vstr product.categories)] else [])
  ++ (match product.nutriscore_score with
      | none => []
      | some n => [("nutriscore_score", Value.vint n)])
  ++ (if product.allergens_tags ≠ [] then
        [("allergens_tags", Value.vlist (product.allergens_tags.map removeEn))] else [])
  ++ (if product.ingredients_analysis_tags ≠ [] then
        [("ingredients_analysis_tags", Value.vlist product.ingredients_analysis_tags)] else [])

/-- Unicode decimal-digit ranges (general category Nd), the character
class Python's `\d` matches in its default Unicode mode on `str`
patterns. -/
def ndRanges : List (Nat × Nat) :=
  [(0x30, 0x39), (0x660, 0x669), (0x6F0, 0x6F9), (0x7C0, 0x7C9),
   (0x966, 0x96F), (0x9E6, 0x9EF), (0xA66, 0xA6F), (0xAE6, 0xAEF),
   (0xB66, 0xB6F), (0xBE6, 0xBEF), (0xC66, 0xC6F), (0xCE6, 0xCEF),
   (0xD66, 0xD6F), (0xDE6, 0xDEF), (0xE50, 0xE59), (0xED0, 0xED9),
   (0xF20, 0xF29), (0x1040, 0x1049), (0x1090, 0x1099), (0x17E0, 0x17E9),
   (0x1810, 0x1819), (0x1946, 0x194F), (0x19D0, 0x19D9), (0x1A80, 0x1A89),
   (0x1A90, 0x1A99), (0x1B50, 0x1B59), (0x1BB0, 0x1BB9), (0x1C40, 0x1C49),
   (0x1C50, 0x1C59), (0xA620, 0xA629), (0xA8D0, 0xA8D9), (0xA900, 0xA909),
   (0xA9D0, 0xA9D9), (0xA9F0, 0xA9F9), (0xAA50, 0xAA59), (0xABF0, 0xABF9),
   (0xFF10, 0xFF19), (0x104A0, 0x104A9), (0x10D30, 0x10D39),
   (0x11066, 0x1106F), (0x110F0, 0x110F9), (0x11136, 0x1113F),
   (0x111D0, 0x111D9), (0x112F0, 0x112F9), (0x11450, 0x11459),
   (0x114D0, 0x114D9), (0x11650, 0x11659), (0x116C0, 0x116C9),
   (0x11730, 0x11739), (0x118E0, 0x118E9), (0x11950, 0x11959),
   (0x11C50, 0x11C59), (0x11D50, 0x11D59), (0x11DA0, 0x11DA9),
   (0x16A60, 0x16A69), (0x16AC0, 0x16AC9), (0x16B50, 0x16B59),
   (0x1D7CE, 0x1D7FF), (0x1E140, 0x1E149), (0x1E2F0, 0x1E2F9),
   (0x1E950, 0x1E959), (0x1FBF0, 0x1FBF9)]

/-- Python `\d` on a `str` pattern: any Unicode decimal digit (category
Nd), not only ASCII `0-9`. -/
def pyIsDecimalDigit (c : Char) : Bool :=
  ndRanges.any (fun p => p.1 ≤ c.toNat && c.toNat ≤ p.2)

/-- Whether a character list is 4 to 14 Python `\d` digits. -/
def isDigits414 (l : List Char) : Bool :=
  l.all pyIsDecimalDigit && 4 ≤ l.length && l.length ≤ 14

/-- Embedding of `re.match(r"^\d{4,14}$", s)` (app.py line 181): the match
succeeds iff `s` is 4-14 Unicode decimal digits, or 4-14 such digits
followed by one final newline (Python's `$` also matches just before a
trailing `\n`). -/
def matchBarcode (s : String) : Bool :=
  isDigits414 s.data ||
  (s.data.getLast? == some '\n' && isDigits414 s.data.dropLast)

/-- Outcome of the single `requests.get` call a handler makes: one of the
three exception classes the handlers distinguish (each carrying its
`str(e)` message), or a reply with an HTTP status code and a parsed JSON
body. -/
inductive UpstreamResult (β : Type) where
  | timeout (msg : String)
  | connectionError (msg : String)
  | requestException (msg : String)
  | reply (status : Nat) (body : β)
  deriving DecidableEq

/-- Message text of the `HTTPError` raised by `resp.raise_for_status()`.
The real message also interpolates the upstream reason phrase and URL,
which are not modelled; no claim depends on this text. -/
def httpErrorMessage (status : Nat) : String :=
  if status < 500 then toString status ++ " Client Error"
  else toString status ++ " Server Error"

/-- Condition under which `resp.raise_for_status()` raises `HTTPError`. -/
def raisesForStatus (status : Nat) : Bool := 400 ≤ status && status < 600

/-- The JSON envelope of the barcode endpoint: `api_data.get("status")`
(absent field modelled as `none`) and `api_data.get("product", {})`. -/
structure BarcodeEnvelope where
  status : Option Int := none
  product : Product := {}
  deriving DecidableEq

/-- The JSON envelope of the search endpoint:
`search_data.get("products", [])`. -/
structure SearchEnvelope where
  products : List Product := []
  deriving DecidableEq

/-- The request body of `/scan-barcode` as the handler case-splits on it:
no/falsy JSON body, a JSON object without a `"barcode"` key, or one whose
`"barcode"` value string-coerces to `raw`. -/
inductive BarcodeRequest where
  | noJson
  | noBarcodeKey
  | withBarcode (raw : String)
  deriving DecidableEq

/-- The request body of `/search-product`, analogously. -/
inductive NameRequest where
  | noJson
  | noNameKey
  | withName (raw : String)
  deriving DecidableEq

/-- Body of an HTTP response from a handler: either `jsonify({"error": msg})`
or a `jsonify` of a normalized product mapping. -/
inductive Resp where
  | err (msg : String)
  | ok (fields : List (String × Value))
  deriving DecidableEq

/-- Embedding of the `scan_barcode` handler (app.py lines 164-213) as a
function of the request body and the outcome of the one upstream call.
Validation happens before the upstream outcome is examined, mirroring the
fact that the Python handler returns before issuing `requests.get`. -/
def scan_barcode (req : BarcodeRequest) (upstream : UpstreamResult BarcodeEnvelope) :
    Nat × Resp :=
  match req with
  | .noJson => (400, .err "Missing 'barcode' field in request body")
  | .noBarcodeKey => (400, .err "Missing 'barcode' field in request body")
  | .withBarcode raw =>
    let barcode := pyStrip raw
    if barcode = "" then (400, .err "Barcode cannot be empty")
    else if ¬ matchBarcode barcode then
      (400, .err "Invalid barcode format. Must be 4-14 digits.")
    else
      match upstream with
      | .timeout _ => (504, .err "External API timed out. Please try again.")
      | .connectionError _ => (502, .err "Unable to reach external API. Check your connection.")
      | .requestException m => (500, .err ("API request failed: " ++ m))
      | .reply status body =>
        if raisesForStatus status then
          (500, .err ("API request failed: " ++ httpErrorMessage status))
        else if body.status ≠ some 1 then (404, .err "Product not found")
        else
          let result := build_product_response body.product
          if result = [] then (404, .err "Product found but contains no usable data")
          else (200, .ok result)

/-- A query-parameter value as passed to `requests.get(params=...)`. -/
inductive ParamValue where
  | pstr (s : String)
  | pint (n : Int)
  deriving DecidableEq

/-- The query parameters the `search_product` handler sends (app.py lines
238-243). -/
def search_params (name : String) : List (String × ParamValue) :=
  [("search_terms", .pstr name),
   ("search_simple", .pint 1),
   ("json", .pint 1),
   ("page_size", .pint 1)]

/-- Embedding of the `search_product` handler (app.py lines 219-259). All
transport exceptions, including timeout and connection errors, fall into
the single `RequestException` clause and yield 500. Note the handler
returns 200 with whatever `build_product_response` produced for the first
product, with no emptiness check. -/
def search_product (req : NameRequest) (upstream : UpstreamResult SearchEnvelope) :
    Nat × Resp :=
  match req with
  | .noJson => (400, .err "Missing 'name' field in request body")
  | .noNameKey => (400, .err "Missing 'name' field in request body")
  | .withName raw =>
    let name := pyStrip raw
    if name = "" then (400, .err "Product name cannot be empty")
    else
      match upstream with
      | .timeout m => (500, .err ("Search API failed: " ++ m))
      | .connectionError m => (500, .err ("Search API failed: " ++ m))
      | .requestException m => (500, .err ("Search API failed: " ++ m))
      | .reply status body =>
        if raisesForStatus status then
          (500, .err ("Search API failed: " ++ httpErrorMessage status))
        else
          match body.products with
          | [] => (404, .err "Product not found")
          | p :: _ => (200, .ok (build_product_response p))

end NutriScan

namespace NutriScan

/-! ## Supporting lemmas -/

/-- Membership in a conditional singleton list. -/
@[simp] theorem mem_ite_single {α : Type} {c : Prop} [Decidable c] {x kv : α} :
    (kv ∈ if c then [x] else []) ↔ c ∧ kv = x := by
  split <;> simp_all

theorem head?_dropWhile_not {α : Type} (p : α → Bool) :
    ∀ (l : List α) {c : α}, (l.dropWhile p).head? = some c → p c = false := by
  intro l
  induction l with
  | nil => intro c h; simp at h
  | cons a t ih =>
    intro c h
    cases hp : p a with
    | true => rw [List.dropWhile_cons_of_pos hp] at h; exact ih h
    | false =>
      rw [List.dropWhile_cons_of_neg (by simp [hp])] at h
      simp only [List.head?_cons, Option.some.injEq] at h
      rw [← h]; exact hp

/-- The last character of a stripped string is never Python whitespace. -/
theorem pyStrip_getLast?_not_space (s : String) {c : Char}
    (h : (pyStrip s).data.getLast? = some c) : pyIsSpace c = false := by
  have he : (pyStrip s).data
      = ((s.data.dropWhile pyIsSpace).reverse.dropWhile pyIsSpace).reverse := rfl
  rw [he, List.getLast?_reverse] at h
  exact head?_dropWhile_not pyIsSpace _ h

theorem matchBarcode_ne_empty (s : String) (h : matchBarcode s = true) : s ≠ "" := by
  intro he
  rw [he] at h
  exact absurd h (by decide)

/-- On a string with no trailing newline — in particular any stripped
string — a successful `^\d{4,14}$` match means 4-14 Unicode decimal
digits. -/
theorem matchBarcode_pyStrip (raw : String) (h : matchBarcode (pyStrip raw) = true) :
    (pyStrip raw).data.all pyIsDecimalDigit = true
      ∧ 4 ≤ (pyStrip raw).data.length ∧ (pyStrip raw).data.length ≤ 14 := by
  rw [matchBarcode, Bool.or_eq_true] at h
  rcases h with h | h
  · rw [isDigits414, Bool.and_eq_true, Bool.and_eq_true] at h
    exact ⟨h.1.1, of_decide_eq_true h.1.2, of_decide_eq_true h.2⟩
  · exfalso
    rw [Bool.and_eq_true, beq_iff_eq] at h
    have := pyStrip_getLast?_not_space raw h.1
    exact absurd this (by decide)

theorem removeEnAux_id_of_not_contains :
    ∀ l : List Char, containsEnAux l = false → removeEnAux l = l := by
  intro l
  induction l using removeEnAux.induct with
  | case1 => intro _; rfl
  | case2 c => intro _; rfl
  | case3 c1 c2 => intro _; rfl
  | case4 c1 c2 c3 rest h ih =>
    intro hc
    simp [containsEnAux, h] at hc
  | case5 c1 c2 c3 rest h ih =>
    intro hc
    simp only [containsEnAux, Bool.or_eq_false_iff] at hc
    simp [removeEnAux, h, ih hc.2]

theorem classify_additives_eq_filter (tags : List String) :
    classify_additives tags =
      ((tags.filter fun t => ! isPreservativeTag t).map fun t => pyUpper (cleanName t),
       (tags.filter isPreservativeTag).map fun t => pyUpper (cleanName t)) := by
  induction tags with
  | nil => rfl
  | cons tag rest ih =>
    simp only [classify_additives, ih]
    cases hp : isPreservativeTag tag with
    | true =>
      rw [show PRESERVATIVE_CODES.contains (pyLower (cleanName tag)) = true from hp]
      simp [List.filter_cons, hp]
    | false =>
      rw [show PRESERVATIVE_CODES.contains (pyLower (cleanName tag)) = false from hp]
      simp [List.filter_cons, hp]

theorem classify_additives_length (tags : List String) :
    (classify_additives tags).1.length + (classify_additives tags).2.length
      = tags.length := by
  induction tags with
  | nil => rfl
  | cons tag rest ih =>
    simp only [classify_additives]
    cases hp : PRESERVATIVE_CODES.contains (pyLower (cleanName tag)) <;>
      simp [hp] <;> omega

end NutriScan

namespace NutriScan

/-- Membership in the normalized response, characterized field by field. -/
theorem mem_build_iff (p : Product) (kv : String × Value) :
    kv ∈ build_product_response p ↔
      (p.product_name ≠ "" ∧ kv = ("product_name", Value.vstr p.product_name)) ∨
      (p.image_url ≠ "" ∧ kv = ("image", Value.vstr p.image_url)) ∨
      (parse_ingredients p.ingredients_text ≠ [] ∧
        kv = ("ingredients", Value.vlist (parse_ingredients p.ingredients_text))) ∨
      ((classify_additives p.additives_tags).1 ≠ [] ∧
        kv = ("additives", Value.vlist (classify_additives p.additives_tags).1)) ∨
      ((classify_additives p.additives_tags).2 ≠ [] ∧
        kv = ("preservatives", Value.vlist (classify_additives p.additives_tags).2)) ∨
      (p.categories ≠ "" ∧ kv = ("categories", Value.vstr p.categories)) ∨
      (∃ n, p.nutriscore_score = some n ∧ kv = ("nutriscore_score", Value.vint n)) ∨
      (p.allergens_tags ≠ [] ∧
        kv = ("allergens_tags", Value.vlist (p.allergens_tags.map removeEn))) ∨
      (p.ingredients_analysis_tags ≠ [] ∧
        kv = ("ingredients_analysis_tags", Value.vlist p.ingredients_analysis_tags)) := by
  cases hn : p.nutriscore_score with
  | none =>
    simp [build_product_response, hn, List.mem_append, mem_ite_single]
  | some n =>
    simp [build_product_response, hn, List.mem_append, mem_ite_single]

end NutriScan

namespace NutriScan

/-- C5: `parse_ingredients` splits on exactly comma, semicolon and bullet,
trims each fragment, drops fragments empty after trimming, preserves
order, performs no deduplication, and maps empty input to the empty
list. Every output entry is non-empty and is the strip of one split
fragment; the concrete cases exercise the examples of the claim, order
preservation, duplicates, and that no other character splits. -/
theorem c5_parse_ingredients_clean :
    (∀ raw s, s ∈ parse_ingredients raw →
      s ≠ "" ∧ ∃ f ∈ List.splitOnP isDelim raw.data, s = pyStrip (String.mk f))
    ∧ parse_ingredients "Sugar, Salt;Water•Milk" = ["Sugar", "Salt", "Water", "Milk"]
    ∧ parse_ingredients "" = []
    ∧ parse_ingredients "  , ," = []
    ∧ parse_ingredients "x,x;x•x" = ["x", "x", "x", "x"]
    ∧ parse_ingredients "a.b a-b" = ["a.b a-b"] := by
  refine ⟨?_, by decide, by decide, by decide, by decide, by decide⟩
  intro raw s hs
  rw [parse_ingredients] at hs
  split at hs
  · simp at hs
  · rw [List.mem_filter] at hs
    obtain ⟨hmem, hne⟩ := hs
    rw [List.mem_map] at hmem
    obtain ⟨f, hf, hfe⟩ := hmem
    exact ⟨by simpa using hne, f, hf, hfe.symm⟩

/-- C5 witness: the universally quantified part instantiated on the
claim's own example input and its first output entry. -/
theorem c5_parse_ingredients_clean_witness :
    ("Sugar" : String) ≠ "" ∧
      ∃ f ∈ List.splitOnP isDelim ("Sugar, Salt;Water•Milk" : String).data,
        ("Sugar" : String) = pyStrip (String.mk f) :=
  c5_parse_ingredients_clean.1 "Sugar, Salt;Water•Milk" "Sugar" (by decide)

end NutriScan

namespace NutriScan

/-- C6: `classify_additives` sends each tag's cleaned upper-cased name to
`preservatives` exactly when its lower-cased code is in
`PRESERVATIVE_CODES` and to `additives` otherwise, never to both (the two
lists are the maps of the two complementary filters, and their lengths
sum to the input length), preserving input order; empty input yields two
empty lists, and the claim's example evaluates as stated. -/
theorem c6_classify_partition :
    (∀ tags, classify_additives tags =
      ((tags.filter fun t => ! isPreservativeTag t).map fun t => pyUpper (cleanName t),
       (tags.filter isPreservativeTag).map fun t => pyUpper (cleanName t)))
    ∧ (∀ tags, (classify_additives tags).1.length + (classify_additives tags).2.length
        = tags.length)
    ∧ classify_additives ["en:e330", "en:e211"] = (["E330"], ["E211"])
    ∧ classify_additives [] = ([], []) :=
  ⟨classify_additives_eq_filter, classify_additives_length, by decide, by decide⟩

/-- C7: the normalized response never contains an empty-string,
empty-list or null value; the `nutriscore_score` key is present exactly
when the source score is not `None`, and an explicit score of 0 is
retained. -/
theorem c7_no_empty_values (p : Product) :
    (∀ kv ∈ build_product_response p,
      kv.2 ≠ Value.vstr "" ∧ kv.2 ≠ Value.vlist [] ∧ kv.2 ≠ Value.vnull)
    ∧ ((∃ v, ("nutriscore_score", v) ∈ build_product_response p) ↔
        p.nutriscore_score ≠ none)
    ∧ (p.nutriscore_score = some 0 →
        ("nutriscore_score", Value.vint 0) ∈ build_product_response p) := by
  refine ⟨?_, ⟨?_, ?_⟩, ?_⟩
  · intro kv hkv
    rw [mem_build_iff] at hkv
    rcases hkv with ⟨h, rfl⟩ | ⟨h, rfl⟩ | ⟨h, rfl⟩ | ⟨h, rfl⟩ | ⟨h, rfl⟩ | ⟨h, rfl⟩ |
      ⟨n, hn, rfl⟩ | ⟨h, rfl⟩ | ⟨h, rfl⟩ <;>
      simp_all [List.map_eq_nil_iff]
  · rintro ⟨v, hv⟩
    rw [mem_build_iff] at hv
    rcases hv with ⟨h, he⟩ | ⟨h, he⟩ | ⟨h, he⟩ | ⟨h, he⟩ | ⟨h, he⟩ | ⟨h, he⟩ |
      ⟨n, hn, he⟩ | ⟨h, he⟩ | ⟨h, he⟩ <;> simp_all
  · intro h
    cases ho : p.nutriscore_score with
    | none => exact absurd ho h
    | some n =>
      refine ⟨Value.vint n, ?_⟩
      rw [mem_build_iff]
      exact Or.inr (Or.inr (Or.inr (Or.inr (Or.inr (Or.inr (Or.inl ⟨n, ho, rfl⟩))))))
  · intro h0
    rw [mem_build_iff]
    exact Or.inr (Or.inr (Or.inr (Or.inr (Or.inr (Or.inr (Or.inl ⟨0, h0, rfl⟩))))))

/-- C7 witness: the retained-zero-score part at a concrete product. -/
theorem c7_no_empty_values_witness :
    ("nutriscore_score", Value.vint 0)
      ∈ build_product_response {nutriscore_score := some 0} :=
  (c7_no_empty_values {nutriscore_score := some 0}).2.2 rfl

/-- C10: the classifier can emit the empty string as an additive name
(for the tag `en:` or a whitespace-only tag), and a list consisting of
one empty string is truthy, so `build_product_response` emits it as the
`additives` field. -/
theorem c10_empty_additive_names :
    classify_additives ["en:"] = ([""], [])
    ∧ classify_additives ["   "] = ([""], [])
    ∧ ("additives", Value.vlist [""]) ∈ build_product_response {additives_tags := ["en:"]}
    ∧ build_product_response {additives_tags := ["en:"]} ≠ [] := by
  refine ⟨by decide, by decide, by decide, by decide⟩

end NutriScan

namespace NutriScan

/-- Once the barcode has validated, `scan_barcode` dispatches purely on
the upstream outcome. -/
theorem scan_barcode_valid_unfold (raw : String) (u : UpstreamResult BarcodeEnvelope)
    (h : matchBarcode (pyStrip raw) = true) :
    scan_barcode (.withBarcode raw) u =
      match u with
      | .timeout _ => (504, .err "External API timed out. Please try again.")
      | .connectionError _ => (502, .err "Unable to reach external API. Check your connection.")
      | .requestException m => (500, .err ("API request failed: " ++ m))
      | .reply status body =>
        if raisesForStatus status then
          (500, .err ("API request failed: " ++ httpErrorMessage status))
        else if body.status ≠ some 1 then (404, .err "Product not found")
        else
          let result := build_product_response body.product
          if result = [] then (404, .err "Product found but contains no usable data")
          else (200, .ok result) := by
  have hne := matchBarcode_ne_empty _ h
  simp only [scan_barcode]
  rw [if_neg hne, if_neg (by simp [h])]

/-- Once the name has validated, `search_product` dispatches purely on
the upstream outcome. -/
theorem search_product_valid_unfold (raw : String) (u : UpstreamResult SearchEnvelope)
    (h : pyStrip raw ≠ "") :
    search_product (.withName raw) u =
      match u with
      | .timeout m => (500, .err ("Search API failed: " ++ m))
      | .connectionError m => (500, .err ("Search API failed: " ++ m))
      | .requestException m => (500, .err ("Search API failed: " ++ m))
      | .reply status body =>
        if raisesForStatus status then
          (500, .err ("Search API failed: " ++ httpErrorMessage status))
        else
          match body.products with
          | [] => (404, .err "Product not found")
          | p :: _ => (200, .ok (build_product_response p)) := by
  simp only [search_product]
  rw [if_neg h]

/-- C1 counterexample: the tag `men:fish` does not start with the `en:`
language prefix, yet both the classifier and the allergen mapping delete
its interior `en:` substring — `str.replace` removes every occurrence,
not only a leading prefix, refuting the claim that non-prefix `en:`
occurrences are left intact. -/
theorem c1_replace_not_prefix_only_cex :
    startsWithEn "men:fish" = false
    ∧ cleanName "men:fish" = "mfish"
    ∧ (classify_additives ["men:fish"]).1 = ["MFISH"]
    ∧ build_product_response {allergens_tags := ["men:fish"]}
        = [("allergens_tags", Value.vlist ["mfish"])] := by
  refine ⟨by decide, by decide, by decide, by decide⟩

/-- C1 amended: the `en:` handling in `classify_additives` and in the
allergen mapping of `build_product_response` deletes every
non-overlapping occurrence of the substring `en:` (so in particular a
leading prefix), with whitespace trimming in the classifier and no
transformation of tags containing no `en:` at all. -/
theorem c1_replace_all_occurrences :
    (∀ s : String, containsEnAux s.data = false → removeEn s = s)
    ∧ (∀ s : String, removeEn ("en:" ++ s) = removeEn s)
    ∧ (∀ tag : String,
        (classify_additives [tag]).1 ++ (classify_additives [tag]).2
          = [pyUpper (pyStrip (removeEn tag))])
    ∧ (∀ p : Product, p.allergens_tags ≠ [] →
        ("allergens_tags", Value.vlist (p.allergens_tags.map removeEn))
          ∈ build_product_response p)
    ∧ removeEn "en:men:fish" = "mfish"
    ∧ removeEn "aen:b" = "ab" := by
  refine ⟨?_, ?_, ?_, ?_, by decide, by decide⟩
  · intro s hc
    show String.mk (removeEnAux s.data) = s
    rw [removeEnAux_id_of_not_contains s.data hc]
  · intro s
    show String.mk (removeEnAux ('e' :: 'n' :: ':' :: s.data)) = removeEn s
    simp [removeEnAux, removeEn]
  · intro tag
    by_cases hp : pyLower (pyStrip (removeEn tag)) ∈ PRESERVATIVE_CODES <;>
      simp [classify_additives, cleanName, hp]
  · intro p hne
    rw [mem_build_iff]
    exact Or.inr (Or.inr (Or.inr (Or.inr (Or.inr (Or.inr (Or.inr (Or.inl ⟨hne, rfl⟩)))))))

/-- C1 witness: the hypotheses of the amended theorem discharged on
concrete inputs. -/
theorem c1_replace_all_occurrences_witness :
    removeEn "abc" = "abc"
    ∧ ("allergens_tags", Value.vlist (["men:fish"].map removeEn))
        ∈ build_product_response {allergens_tags := ["men:fish"]} :=
  ⟨c1_replace_all_occurrences.1 "abc" (by decide),
   c1_replace_all_occurrences.2.2.2.1 {allergens_tags := ["men:fish"]} (by decide)⟩

/-- C2 counterexample: an upstream reply with HTTP status 500 whose
envelope carries `status = 0` is answered 500 (`raise_for_status` throws
before the status flag is inspected), not 404 — the flag does not decide
not-found regardless of the HTTP status code. -/
theorem c2_http_error_overrides_status_cex :
    (({status := some 0} : BarcodeEnvelope).status ≠ some 1)
    ∧ scan_barcode (.withBarcode "1234") (.reply 500 {status := some 0})
        = (500, .err "API request failed: 500 Server Error") := by
  refine ⟨by decide, by decide⟩

/-- C2 amended: for replies whose HTTP status does not make
`raise_for_status` throw (i.e. outside 400-599), the envelope's `status`
flag alone decides not-found: any value other than 1 (including absence)
yields 404 with the "Product not found" error. -/
theorem c2_status_flag_decides_not_found (raw : String) (status : Nat)
    (env : BarcodeEnvelope)
    (h : matchBarcode (pyStrip raw) = true)
    (hrs : raisesForStatus status = false)
    (hst : env.status ≠ some 1) :
    scan_barcode (.withBarcode raw) (.reply status env) = (404, .err "Product not found") := by
  rw [scan_barcode_valid_unfold _ _ h]
  simp only
  rw [if_neg (by simp [hrs]), if_pos hst]

/-- C2 witness: a valid barcode, an HTTP 200 reply, and envelope status 0. -/
theorem c2_status_flag_decides_not_found_witness :
    scan_barcode (.withBarcode "1234") (.reply 200 {status := some 0})
      = (404, .err "Product not found") :=
  c2_status_flag_decides_not_found "1234" 200 {status := some 0}
    (by decide) (by decide) (by decide)

/-- C3 counterexample: when the first search hit normalizes to the empty
mapping, `search_product` answers 200 with the empty object, not 404 —
the name-based handler has no empty-result check. -/
theorem c3_search_empty_normalization_cex :
    build_product_response {} = []
    ∧ search_product (.withName "xyzzynonexistent") (.reply 200 {products := [{}]})
        = (200, .ok []) := by
  refine ⟨by decide, by decide⟩

/-- C3 amended: only the barcode handler maps an empty normalized object
to 404 ("Product found but contains no usable data"); the name-based
handler returns 200 with the empty mapping. -/
theorem c3_empty_normalization :
    (∀ (raw : String) (status : Nat) (env : BarcodeEnvelope),
      matchBarcode (pyStrip raw) = true → raisesForStatus status = false →
      env.status = some 1 → build_product_response env.product = [] →
      scan_barcode (.withBarcode raw) (.reply status env)
        = (404, .err "Product found but contains no usable data"))
    ∧ (∀ (raw : String) (status : Nat) (env : SearchEnvelope) (p : Product)
        (rest : List Product),
      pyStrip raw ≠ "" → raisesForStatus status = false →
      env.products = p :: rest → build_product_response p = [] →
      search_product (.withName raw) (.reply status env) = (200, .ok [])) := by
  constructor
  · intro raw status env h hrs hst hb
    rw [scan_barcode_valid_unfold _ _ h]
    simp only
    rw [if_neg (by simp [hrs]), if_neg (by simp [hst])]
    simp [hb]
  · intro raw status env p rest hne hrs hp hb
    rw [search_product_valid_unfold _ _ hne]
    simp only
    rw [if_neg (by simp [hrs]), hp]
    simp [hb]

/-- C3 witness: both branches of the amended theorem on concrete inputs. -/
theorem c3_empty_normalization_witness :
    scan_barcode (.withBarcode "1234") (.reply 200 {status := some 1})
        = (404, .err "Product found but contains no usable data")
    ∧ search_product (.withName "x") (.reply 200 {products := [{}]}) = (200, .ok []) :=
  ⟨c3_empty_normalization.1 "1234" 200 {status := some 1}
      (by decide) (by decide) (by decide) (by decide),
   c3_empty_normalization.2 "x" 200 {products := [{}]} {} []
      (by decide) (by decide) (by decide) (by decide)⟩

/-- C4 counterexample: the string of four Arabic-Indic digits U+0660-0663
contains no ASCII digit at all, yet passes format validation — the
handler proceeds to the upstream call (here timing out with 504) instead
of rejecting with 400, because Python's `\d` matches any Unicode decimal
digit. -/
theorem c4_unicode_digit_passes_cex :
    ("٠١٢٣" : String).data.all Char.isDigit = false
    ∧ scan_barcode (.withBarcode "٠١٢٣") (.timeout "t")
        = (504, .err "External API timed out. Please try again.") := by
  refine ⟨by decide, by decide⟩

/-- C4 amended: the barcode handler rejects with 400, before the upstream
outcome can matter, every request whose trimmed barcode is not 4-14
Unicode decimal digits (`\d` in Python's default Unicode mode, a superset
of ASCII digits): "123" and "12a456" are rejected whatever the upstream
would do, a 13-digit ASCII barcode passes, and any request not answered
400 has a trimmed barcode of 4-14 Unicode decimal digits. -/
theorem c4_barcode_validation :
    (∀ u : UpstreamResult BarcodeEnvelope,
      scan_barcode (.withBarcode "123") u
          = (400, .err "Invalid barcode format. Must be 4-14 digits.")
      ∧ scan_barcode (.withBarcode "12a456") u
          = (400, .err "Invalid barcode format. Must be 4-14 digits."))
    ∧ matchBarcode "0123456789012" = true
    ∧ (∀ (raw : String) (u : UpstreamResult BarcodeEnvelope),
        (scan_barcode (.withBarcode raw) u).1 ≠ 400 →
        (pyStrip raw).data.all pyIsDecimalDigit = true
          ∧ 4 ≤ (pyStrip raw).data.length ∧ (pyStrip raw).data.length ≤ 14) := by
  refine ⟨?_, by decide, ?_⟩
  · intro u
    constructor <;>
      · simp only [scan_barcode]
        rw [if_neg (by decide), if_pos (by decide)]
  · intro raw u h
    by_cases he : pyStrip raw = ""
    · exfalso
      apply h
      simp only [scan_barcode]
      rw [if_pos he]
    · by_cases hm : matchBarcode (pyStrip raw) = true
      · exact matchBarcode_pyStrip raw hm
      · exfalso
        apply h
        simp only [scan_barcode]
        rw [if_neg he, if_pos (by simpa using hm)]

/-- C4 witness: the digits-only consequence at a barcode the handler does
not reject. -/
theorem c4_barcode_validation_witness :
    ((pyStrip "5449000000996").data.all pyIsDecimalDigit = true
      ∧ 4 ≤ (pyStrip "5449000000996").data.length
      ∧ (pyStrip "5449000000996").data.length ≤ 14) :=
  c4_barcode_validation.2.2 "5449000000996" (.timeout "t") (by decide)

/-- C8: after validation, the three transport failures of the barcode
handler map to three distinct codes — timeout to 504 with the exact
message of the claim, connection failure to 502, any other request
exception to 500; being a function of the outcome, the handler produces
exactly one of them per failure. -/
theorem c8_transport_errors (raw m : String)
    (h : matchBarcode (pyStrip raw) = true) :
    scan_barcode (.withBarcode raw) (.timeout m)
        = (504, .err "External API timed out. Please try again.")
    ∧ scan_barcode (.withBarcode raw) (.connectionError m)
        = (502, .err "Unable to reach external API. Check your connection.")
    ∧ scan_barcode (.withBarcode raw) (.requestException m)
        = (500, .err ("API request failed: " ++ m)) := by
  refine ⟨?_, ?_, ?_⟩ <;> rw [scan_barcode_valid_unfold _ _ h]

/-- C8 witness: the three failure kinds at a concrete valid barcode. -/
theorem c8_transport_errors_witness :
    scan_barcode (.withBarcode "5449000000996") (.timeout "timed out")
        = (504, .err "External API timed out. Please try again.")
    ∧ scan_barcode (.withBarcode "5449000000996") (.connectionError "no route")
        = (502, .err "Unable to reach external API. Check your connection.")
    ∧ scan_barcode (.withBarcode "5449000000996") (.requestException "boom")
        = (500, .err ("API request failed: " ++ "boom")) :=
  ⟨(c8_transport_errors "5449000000996" "timed out" (by decide)).1,
   (c8_transport_errors "5449000000996" "no route" (by decide)).2.1,
   (c8_transport_errors "5449000000996" "boom" (by decide)).2.2⟩

/-- C9: the search request carries the simple-text-search, JSON and
page-size-one parameters; for a processed reply an empty `products` list
(its default when the key is missing) yields 404 "Product not found",
and a non-empty list yields 200 built from its first element. -/
theorem c9_search (name raw : String) (status : Nat) (env : SearchEnvelope)
    (p : Product) (rest : List Product)
    (hne : pyStrip raw ≠ "") (hrs : raisesForStatus status = false) :
    (("search_terms", ParamValue.pstr name) ∈ search_params name
      ∧ ("search_simple", ParamValue.pint 1) ∈ search_params name
      ∧ ("json", ParamValue.pint 1) ∈ search_params name
      ∧ ("page_size", ParamValue.pint 1) ∈ search_params name)
    ∧ (env.products = [] →
        search_product (.withName raw) (.reply status env)
          = (404, .err "Product not found"))
    ∧ (env.products = p :: rest →
        search_product (.withName raw) (.reply status env)
          = (200, .ok (build_product_response p))) := by
  refine ⟨⟨by simp [search_params], by simp [search_params], by simp [search_params],
    by simp [search_params]⟩, ?_, ?_⟩
  · intro hp
    rw [search_product_valid_unfold _ _ hne]
    simp only
    rw [if_neg (by simp [hrs]), hp]
  · intro hp
    rw [search_product_valid_unfold _ _ hne]
    simp only
    rw [if_neg (by simp [hrs]), hp]

/-- C9 witness: an empty products list at a concrete name yields 404. -/
theorem c9_search_witness :
    search_product (.withName "chocolate") (.reply 200 {products := []})
      = (404, .err "Product not found") :=
  (c9_search "chocolate" "chocolate" 200 {products := []} {} []
    (by decide) (by decide)).2.1 rfl

end NutriScan
